import Mathlib

/-!
Shallow embedding of the TaxiGo enhanced backend core
(`src/gps_tracker.py` and `src/security_manager.py`).

Conventions:
* Python floats are modelled as real numbers (`ℝ`) for the geo code and as
  rationals (`ℚ`) for timestamps/counters in the security code.
* Python dicts (insertion ordered) are modelled as association lists, sets as
  lists with membership insertion.
* Fallible code paths (Python exceptions) are modelled with `Except`.
* `datetime.now()` / `time.time()` values are passed as explicit parameters.
-/

namespace TaxiGo

/-- Association-list read with default, modelling Python `dict` lookup
(`d[k]` with a `defaultdict`, or `d.get(k, default)`). -/
def lookupD {α : Type} (l : List (String × α)) (k : String) (d : α) : α :=
  match l.find? (fun p => p.1 == k) with
  | some p => p.2
  | none => d

/-- Association-list write, modelling Python `d[k] = v` (insertion order kept,
existing key overwritten in place). -/
def setKey {α : Type} (l : List (String × α)) (k : String) (v : α) : List (String × α) :=
  if l.any (fun p => p.1 == k) then
    l.map (fun p => if p.1 == k then (k, v) else p)
  else
    l ++ [(k, v)]

/-! ### gps_tracker.py : data model -/

/-- The `Location` dataclass of `gps_tracker.py`. The timestamp is epoch
seconds. -/
structure Location where
  latitude : ℝ
  longitude : ℝ
  timestamp : ℝ
  accuracy : ℝ := 0
  heading : ℝ := 0
  speed : ℝ := 0

/-- The `Route` dataclass of `gps_tracker.py`. -/
structure Route where
  start_location : Location
  end_location : Location
  waypoints : List Location
  distance_km : ℝ
  duration_minutes : ℝ
  estimated_fare : ℝ

/-- Python `math.radians`. -/
noncomputable def radians (x : ℝ) : ℝ := x * Real.pi / 180

/-- Python `math.atan2 y x`, written out by quadrant (signed zeros and
infinities of IEEE floats are outside the real-number model). -/
noncomputable def atan2 (y x : ℝ) : ℝ :=
  if 0 < x then Real.arctan (y / x)
  else if x < 0 ∧ 0 ≤ y then Real.arctan (y / x) + Real.pi
  else if x < 0 ∧ y < 0 then Real.arctan (y / x) - Real.pi
  else if x = 0 ∧ 0 < y then Real.pi / 2
  else if x = 0 ∧ y < 0 then -(Real.pi / 2)
  else 0

/-- `GPSTracker.calculate_distance`: haversine distance, Earth radius 6371 km. -/
noncomputable def calculate_distance (loc1 loc2 : Location) : ℝ :=
  let R : ℝ := 6371
  let lat1_rad := radians loc1.latitude
  let lat2_rad := radians loc2.latitude
  let delta_lat := radians (loc2.latitude - loc1.latitude)
  let delta_lon := radians (loc2.longitude - loc1.longitude)
  let a := Real.sin (delta_lat / 2) ^ 2 +
    Real.cos lat1_rad * Real.cos lat2_rad * Real.sin (delta_lon / 2) ^ 2
  let c := 2 * atan2 (Real.sqrt a) (Real.sqrt (1 - a))
  R * c

/-- Python `int(x)` on a float: truncation toward zero. -/
noncomputable def pyInt (x : ℝ) : ℤ := if 0 ≤ x then ⌊x⌋ else ⌈x⌉

/-- `GPSTracker.calculate_eta`: fixed 25 km/h heuristic, `int` truncation,
plus a 2-minute buffer, floored at 3 minutes. -/
noncomputable def calculate_eta (driver_location destination : Location) : ℤ :=
  let distance_km := calculate_distance driver_location destination
  let average_speed : ℝ := 25
  let eta_hours := distance_km / average_speed
  let eta_minutes := pyInt (eta_hours * 60)
  max (eta_minutes + 2) 3

/-- `GPSTracker.calculate_speed`: km/h from two locations, 0 when the elapsed
time is not positive. -/
noncomputable def calculate_speed (loc1 loc2 : Location) : ℝ :=
  let distance_km := calculate_distance loc1 loc2
  let time_diff := (loc2.timestamp - loc1.timestamp) / 3600
  if 0 < time_diff then distance_km / time_diff else 0

/-- `GPSTracker.get_surge_multiplier` as a pure function of the local hour. -/
noncomputable def get_surge_multiplier (hour : ℕ) : ℝ :=
  if (7 ≤ hour ∧ hour ≤ 9) ∨ (17 ≤ hour ∧ hour ≤ 19) then 1.5
  else if 23 ≤ hour ∨ hour ≤ 3 then 1.3
  else 1.0

/-- Round-half-to-even of a real to an integer, modelling Python `round`
(banker's rounding) over the reals. -/
noncomputable def roundHalfToEven (y : ℝ) : ℤ :=
  if Int.fract y = 1 / 2 then (if Even ⌊y⌋ then ⌊y⌋ else ⌊y⌋ + 1) else round y

/-- Python `round(x, 2)` over the reals. -/
noncomputable def pyRound2 (x : ℝ) : ℝ := (roundHalfToEven (x * 100) : ℝ) / 100

/-- Python `round(x, 1)` over the reals. -/
noncomputable def pyRound1 (x : ℝ) : ℝ := (roundHalfToEven (x * 10) : ℝ) / 10

/-- `GPSTracker.calculate_fare`: base 5.00 AUD + 2.50/km + 0.50/min, surge
scaled, rounded to 2 decimals. The local hour drives the surge multiplier. -/
noncomputable def calculate_fare (distance_km duration_minutes : ℝ) (hour : ℕ) : ℝ :=
  let base_fare : ℝ := 5.00
  let per_km_rate : ℝ := 2.50
  let per_minute_rate : ℝ := 0.50
  let distance_cost := distance_km * per_km_rate
  let time_cost := duration_minutes * per_minute_rate
  let total_fare := base_fare + distance_cost + time_cost
  let surged_fare := total_fare * get_surge_multiplier hour
  pyRound2 surged_fare

/-! ### gps_tracker.py : location store -/

/-- The track-update step inside `GPSTracker.update_driver_location`: append,
cap at the last 100 entries, then annotate the appended entry's `speed` from
the previous entry (the Python code mutates the appended object in place). -/
noncomputable def updateTrack (old : List Location) (location : Location) : List Location :=
  let t1 := old ++ [location]
  let t2 := if 100 < t1.length then t1.drop (t1.length - 100) else t1
  if 1 < t2.length then
    let prev := t2.getD (t2.length - 2) location
    t2.dropLast ++ [{ location with speed := calculate_speed prev location }]
  else t2

/-- A geofence record of `GPSTracker.create_geofence`. -/
structure Geofence where
  name : String
  center : Location
  radius_meters : ℝ

/-- A geofence-enter event of `GPSTracker.check_geofences`. -/
structure GeofenceEvent where
  geofence_id : String
  geofence_name : String
  driver_id : String

/-- `GPSTracker.check_geofences`: one enter event per geofence whose center is
within its radius of the location. -/
noncomputable def check_geofences (geofences : List (String × Geofence))
    (driver_id : String) (location : Location) : List GeofenceEvent :=
  geofences.filterMap (fun g =>
    if calculate_distance location g.2.center * 1000 ≤ g.2.radius_meters then
      some { geofence_id := g.1, geofence_name := g.2.name, driver_id := driver_id }
    else none)

/-- The mutable state of a `GPSTracker` instance that the claims touch. -/
structure GPSState where
  driver_locations : List (String × List Location)
  geofences : List (String × Geofence)

/-- The success dictionary returned by `GPSTracker.update_driver_location`. -/
structure UpdateResult where
  success : Bool
  driver_id : String
  location : Location
  geofence_events : List GeofenceEvent

/-- `GPSTracker.update_driver_location`: append the location to the driver's
track (capped at 100), annotate its speed, check geofences, return success.
No coordinate validation is performed in the source. -/
noncomputable def update_driver_location (st : GPSState) (driver_id : String)
    (location : Location) : UpdateResult × GPSState :=
  let old := lookupD st.driver_locations driver_id []
  let track := updateTrack old location
  let annotated := track.getLastD location
  let events := check_geofences st.geofences driver_id annotated
  ({ success := true, driver_id := driver_id, location := annotated,
     geofence_events := events },
   { st with driver_locations := setKey st.driver_locations driver_id track })

/-- One entry of the list returned by `GPSTracker.find_nearby_drivers`. -/
structure NearbyDriver where
  driver_id : String
  location : Location
  distance_km : ℝ
  eta_minutes : ℤ
  heading : ℝ
  speed : ℝ

/-- `GPSTracker.find_nearby_drivers`: drivers with a non-empty track whose
latest entry is within the radius, with 2-decimal rounded distance and ETA,
stably sorted by the rounded distance (Python `list.sort` with a key). -/
noncomputable def find_nearby_drivers (driver_locations : List (String × List Location))
    (passenger_location : Location) (radius_km : ℝ) : List NearbyDriver :=
  let nearby := driver_locations.filterMap (fun d =>
    match d.2.getLast? with
    | none => none
    | some latest =>
      let distance := calculate_distance passenger_location latest
      if distance ≤ radius_km then
        some { driver_id := d.1, location := latest,
               distance_km := pyRound2 distance,
               eta_minutes := calculate_eta latest passenger_location,
               heading := latest.heading, speed := latest.speed }
      else none)
  nearby.mergeSort (fun a b => decide (a.distance_km ≤ b.distance_km))

/-- The success dictionary of `GPSTracker.track_ride_progress`. -/
structure RideProgress where
  ride_id : String
  driver_id : String
  current_location : Location
  progress_percentage : ℝ
  remaining_distance_km : ℝ
  estimated_remaining_minutes : ℤ
  current_speed : ℝ

/-- `GPSTracker.track_ride_progress`. The progress division has no zero guard
in the source; when `route.distance_km = 0` Python raises `ZeroDivisionError`,
modelled as an error result at exactly that point. -/
noncomputable def track_ride_progress (st : GPSState) (ride_id driver_id : String)
    (route : Route) : Except String RideProgress :=
  let locations := lookupD st.driver_locations driver_id []
  match locations.getLast? with
  | none => .error "No driver location available"
  | some current_location =>
    let total_distance := route.distance_km
    let distance_to_destination := calculate_distance current_location route.end_location
    if total_distance = 0 then .error "ZeroDivisionError: float division by zero"
    else
      let progress_percentage :=
        max 0 (min 100 ((total_distance - distance_to_destination) / total_distance * 100))
      .ok { ride_id := ride_id, driver_id := driver_id,
            current_location := current_location,
            progress_percentage := pyRound1 progress_percentage,
            remaining_distance_km := pyRound2 distance_to_destination,
            estimated_remaining_minutes := calculate_eta current_location route.end_location,
            current_speed := current_location.speed }

/-! ### gps_tracker.py : route calculation -/

/-- The data `GPSTracker.calculate_route` extracts from a successful Google
Directions response: leg distance (meters), leg duration (seconds), and the
step start coordinates. -/
structure ProviderLeg where
  distance_m : ℝ
  duration_s : ℝ
  step_starts : List (ℝ × ℝ)

/-- Outcome of the external routing-provider call: a parsed OK response, a
non-OK status in the response body, or a raised exception (network error,
malformed body, ...). -/
inductive ProviderOutcome where
  | ok : ProviderLeg → ProviderOutcome
  | badStatus : ProviderOutcome
  | failure : ProviderOutcome

/-- `GPSTracker.calculate_route` with the provider call made explicit. The
non-OK branch and the exception branch both build the same straight-line
fallback, duplicated here as in the source. -/
noncomputable def calculate_route (outcome : ProviderOutcome) (hour : ℕ) (now : ℝ)
    (start_location end_location : Location) : Route :=
  match outcome with
  | .ok leg =>
    let distance_km := leg.distance_m / 1000
    let duration_minutes := leg.duration_s / 60
    let estimated_fare := calculate_fare distance_km duration_minutes hour
    let route_waypoints := leg.step_starts.map (fun p =>
      { latitude := p.1, longitude := p.2, timestamp := now : Location })
    { start_location := start_location, end_location := end_location,
      waypoints := route_waypoints, distance_km := distance_km,
      duration_minutes := duration_minutes, estimated_fare := estimated_fare }
  | .badStatus =>
    let distance_km := calculate_distance start_location end_location
    let duration_minutes := distance_km * 2
    let estimated_fare := calculate_fare distance_km duration_minutes hour
    { start_location := start_location, end_location := end_location,
      waypoints := [start_location, end_location], distance_km := distance_km,
      duration_minutes := duration_minutes, estimated_fare := estimated_fare }
  | .failure =>
    let distance_km := calculate_distance start_location end_location
    let duration_minutes := distance_km * 2
    let estimated_fare := calculate_fare distance_km duration_minutes hour
    { start_location := start_location, end_location := end_location,
      waypoints := [start_location, end_location], distance_km := distance_km,
      duration_minutes := duration_minutes, estimated_fare := estimated_fare }

/-! ### security_manager.py : state and rate limiting -/

/-- The mutable state of a `SecurityManager` instance that the claims touch.
Security events are kept as their event-type strings. -/
structure SecState where
  rate_limits : List (String × List ℚ)
  blocked_ips : List String
  suspicious_activities : List (String × ℕ)
  security_events : List String

/-- `SecurityManager.log_security_event`, reduced to the event-type log with
its 1000-entry cap. -/
def log_security_event (st : SecState) (event_type : String) : SecState :=
  let events := st.security_events ++ [event_type]
  let capped := if 1000 < events.length then events.drop (events.length - 1000) else events
  { st with security_events := capped }

/-- The three outcomes of one pass through the `rate_limit` decorator body:
already-blocked rejection, over-limit rejection with a retry-after hint in
seconds, or admission. -/
inductive RateLimitOutcome where
  | blockedIp : RateLimitOutcome
  | rejected : ℚ → RateLimitOutcome
  | allowed : RateLimitOutcome
deriving DecidableEq

/-- One request through `SecurityManager.rate_limit(max_requests,
window_minutes)`: blocked-IP short circuit, lazy front pruning of the client's
window, over-limit rejection with suspicion escalation and IP blocking at 5
violations, else append-and-allow. -/
def rate_limit (max_requests : ℕ) (window_minutes : ℚ) (client_id client_ip : String)
    (now : ℚ) (st : SecState) : RateLimitOutcome × SecState :=
  if st.blocked_ips.contains client_ip then
    (.blockedIp, log_security_event st "blocked_ip_attempt")
  else
    let window_start := now - window_minutes * 60
    let client_requests := lookupD st.rate_limits client_id []
    let pruned := client_requests.dropWhile (fun t => decide (t < window_start))
    if max_requests ≤ pruned.length then
      let st1 := log_security_event st "rate_limit_exceeded"
      let new_count := lookupD st1.suspicious_activities client_ip 0 + 1
      let st2 := { st1 with
        rate_limits := setKey st1.rate_limits client_id pruned,
        suspicious_activities := setKey st1.suspicious_activities client_ip new_count }
      let st3 := if 5 ≤ new_count then
          log_security_event
            { st2 with blocked_ips :=
                if st2.blocked_ips.contains client_ip then st2.blocked_ips
                else st2.blocked_ips ++ [client_ip] }
            "ip_blocked"
        else st2
      (.rejected (window_minutes * 60), st3)
    else
      (.allowed, { st with rate_limits := setKey st.rate_limits client_id (pruned ++ [now]) })

/-! ### security_manager.py : tokens -/

/-- The `user_data` dictionary consumed by `generate_tokens`; `user_type` is
`none` when the key is absent (`user_data.get` then supplies `"passenger"`). -/
structure UserData where
  id : String
  email : String
  user_type : Option String
deriving DecidableEq

/-- A JWT payload dictionary. `user_type` is `none` when the key is absent,
which is the case for refresh-token payloads. -/
structure Payload where
  user_id : String
  email : String
  user_type : Option String
  iat : ℚ
  exp : ℚ
  type : String
deriving DecidableEq

/-- A signed token: `jwt.encode(payload, key, algorithm)` binds the payload to
the signing secret; possession of a matching secret is what `jwt.decode`
verifies. -/
structure Token where
  payload : Payload
  key : String
deriving DecidableEq

/-- PyJWT error classes relevant here. -/
inductive JwtError where
  | expiredSignature : JwtError
  | invalidToken : JwtError
deriving DecidableEq

/-- `jwt.encode`. -/
def jwt_encode (payload : Payload) (key : String) : Token :=
  { payload := payload, key := key }

/-- `jwt.decode(token, key, algorithms)`: signature check against the secret,
then the built-in `exp` claim check (expired when `exp < now`). -/
def jwt_decode (token : Token) (key : String) (now : ℚ) : Except JwtError Payload :=
  if token.key ≠ key then .error .invalidToken
  else if token.payload.exp < now then .error .expiredSignature
  else .ok token.payload

/-- The success dictionary of `SecurityManager.generate_tokens`. -/
structure TokensResult where
  access_token : Token
  refresh_token : Token
  expires_in : ℚ

/-- `SecurityManager.generate_tokens` at time `now` (epoch seconds): access
token with `user_type` (defaulted to `"passenger"`), 1-hour expiry; refresh
token without a `user_type` claim, 30-day expiry. -/
def generate_tokens (user_data : UserData) (now : ℚ) (key : String) : TokensResult :=
  let access_payload : Payload :=
    { user_id := user_data.id, email := user_data.email,
      user_type := some (user_data.user_type.getD "passenger"),
      iat := now, exp := now + 3600, type := "access" }
  let refresh_payload : Payload :=
    { user_id := user_data.id, email := user_data.email,
      user_type := none,
      iat := now, exp := now + 2592000, type := "refresh" }
  { access_token := jwt_encode access_payload key,
    refresh_token := jwt_encode refresh_payload key,
    expires_in := 3600 }

/-- `SecurityManager.verify_token`: decode, then the token-type check, then
the manual expiry re-check (`utcnow() > exp`). -/
def verify_token (token : Token) (token_type : String) (key : String) (now : ℚ) :
    Except String Payload :=
  match jwt_decode token key now with
  | .error .expiredSignature => .error "Token expired"
  | .error .invalidToken => .error "Invalid token"
  | .ok payload =>
    if payload.type ≠ token_type then .error "Invalid token type"
    else if payload.exp < now then .error "Token expired"
    else .ok payload

/-- The success dictionary of `SecurityManager.refresh_access_token`. -/
structure RefreshResult where
  access_token : Token
  expires_in : ℚ
deriving DecidableEq

/-- `SecurityManager.refresh_access_token` at time `now`: verify the refresh
token, rebuild `user_data` from its claims (`user_type` defaulted to
`"passenger"` since the refresh payload omits it), re-issue tokens, and return
the new access token. -/
def refresh_access_token (refresh_token : Token) (key : String) (now : ℚ) :
    Except String RefreshResult :=
  match verify_token refresh_token "refresh" key now with
  | .error e => .error e
  | .ok payload =>
    let user_data : UserData :=
      { id := payload.user_id, email := payload.email,
        user_type := some (payload.user_type.getD "passenger") }
    let tokens := generate_tokens user_data now key
    .ok { access_token := tokens.access_token, expires_in := tokens.expires_in }

/-! ### Concrete inputs used by witnesses and counterexamples -/

/-- Origin location at latitude 0, longitude 0. -/
noncomputable def locOrigin : Location :=
  { latitude := 0, longitude := 0, timestamp := 0 }

/-- The antipode of `locOrigin` on the equator: latitude 0, longitude 180. -/
noncomputable def locAntipode : Location :=
  { latitude := 0, longitude := 180, timestamp := 0 }

/-- A location whose coordinates are both out of range. -/
noncomputable def locBad : Location :=
  { latitude := 100, longitude := 200, timestamp := 0 }

/-- A GPS state with one driver at the origin and no geofences. -/
noncomputable def gpsStOneDriver : GPSState :=
  { driver_locations := [("d1", [locOrigin])], geofences := [] }

/-- An empty GPS state. -/
noncomputable def gpsStEmpty : GPSState :=
  { driver_locations := [], geofences := [] }

/-- A route whose recorded distance is zero. -/
noncomputable def routeZero : Route :=
  { start_location := locOrigin, end_location := locOrigin, waypoints := [],
    distance_km := 0, duration_minutes := 0, estimated_fare := 0 }

/-- The concrete security state of the C2 witness: client `"c1"` with five
admitted timestamps. -/
def stC2 : SecState :=
  { rate_limits := [("c1", [0, 100, 200, 300, 400])], blocked_ips := [],
    suspicious_activities := [], security_events := [] }

/-- The concrete security state of the C3 witness: source `"9.9.9.9"` with
suspicion counter 4 and a full window for client `"c9"`. -/
def stC3 : SecState :=
  { rate_limits := [("c9", [0])], blocked_ips := [],
    suspicious_activities := [("9.9.9.9", 4)], security_events := [] }

/-- A concrete security state in which `"9.9.9.9"` is already blocked. -/
def stC3blocked : SecState :=
  { rate_limits := [("c9", [0, 7])], blocked_ips := ["9.9.9.9"],
    suspicious_activities := [("9.9.9.9", 5)], security_events := [] }

/-- Projection of a location that forgets the derived `speed` annotation; the
identity of a track entry for eviction purposes. -/
noncomputable def stripSpeed (l : Location) : Location := { l with speed := 0 }

/-- The spec's description of `findNearby` before sorting (§4.3 of the spec):
drivers with a non-empty track, whose latest entry lies within the radius,
each mapped to its result entry. Defined for comparison with the source's
`find_nearby_drivers`. -/
noncomputable def nearbySpecEntries (driver_locations : List (String × List Location))
    (passenger_location : Location) (radius_km : ℝ) : List NearbyDriver :=
  ((driver_locations.filter (fun d => !d.2.isEmpty)).filter
      (fun d => decide (calculate_distance passenger_location
        (d.2.getLastD passenger_location) ≤ radius_km))).map
    (fun d =>
      { driver_id := d.1, location := d.2.getLastD passenger_location,
        distance_km := pyRound2 (calculate_distance passenger_location
          (d.2.getLastD passenger_location)),
        eta_minutes := calculate_eta (d.2.getLastD passenger_location) passenger_location,
        heading := (d.2.getLastD passenger_location).heading,
        speed := (d.2.getLastD passenger_location).speed })

/-! ### Association-list lemmas -/

/-- Reading back the key just written returns the written value. -/
theorem lookupD_setKey {α : Type} (k : String) (v d : α) :
    ∀ l : List (String × α), lookupD (setKey l k v) k d = v := by
  intro l
  induction l with
  | nil => simp [lookupD, setKey, List.find?]
  | cons p l ih =>
    by_cases hp : (p.1 == k) = true
    · have hp' : p.1 = k := by simpa using hp
      have hcond : ((p :: l).any fun q => q.1 == k) = true := by
        simp [List.any_cons, hp]
      rw [setKey, if_pos hcond, List.map_cons, if_pos hp]
      unfold lookupD
      rw [List.find?_cons_of_pos _ (by simp)]
    · have hp' : ¬ p.1 = k := by simpa using hp
      by_cases ha : (l.any fun q => q.1 == k) = true
      · have ih' := ih
        rw [setKey, if_pos ha] at ih'
        have hcond : ((p :: l).any fun q => q.1 == k) = true := by
          simp [List.any_cons, ha]
        rw [setKey, if_pos hcond, List.map_cons, if_neg hp]
        unfold lookupD at ih' ⊢
        rw [List.find?_cons_of_neg _ (by simpa using hp')]
        exact ih'
      · have ih' := ih
        rw [setKey, if_neg (by simpa using ha)] at ih'
        have hcond : ¬ ((p :: l).any fun q => q.1 == k) = true := by
          simp [List.any_cons, hp, ha]
        rw [setKey, if_neg hcond, List.cons_append]
        unfold lookupD at ih' ⊢
        rw [List.find?_cons_of_neg _ (by simpa using hp')]
        exact ih'

/-! ### C7 : fallback route determinism -/

/-- C7: whenever the routing-provider call returns a non-OK status or raises,
`calculate_route` returns exactly the deterministic fallback route:
waypoints `[start, end]`, haversine distance, duration twice the distance,
and the fare computed from those. -/
theorem calculate_route_fallback (hour : ℕ) (now : ℝ) (s e : Location) :
    calculate_route .badStatus hour now s e =
      { start_location := s, end_location := e, waypoints := [s, e],
        distance_km := calculate_distance s e,
        duration_minutes := calculate_distance s e * 2,
        estimated_fare :=
          calculate_fare (calculate_distance s e) (calculate_distance s e * 2) hour } ∧
    calculate_route .failure hour now s e =
      { start_location := s, end_location := e, waypoints := [s, e],
        distance_km := calculate_distance s e,
        duration_minutes := calculate_distance s e * 2,
        estimated_fare :=
          calculate_fare (calculate_distance s e) (calculate_distance s e * 2) hour } :=
  ⟨rfl, rfl⟩

/-! ### C4 : token round trip -/

/-- C4: verifying the access token issued by `generate_tokens` with expected
kind `"access"`, at any time before its expiry, succeeds and returns the
original subject id, email and role. -/
theorem token_round_trip (user : UserData) (r key : String) (t0 t1 : ℚ)
    (hrole : user.user_type = some r) (h1 : t1 < t0 + 3600) :
    verify_token (generate_tokens user t0 key).access_token "access" key t1 =
      .ok { user_id := user.id, email := user.email, user_type := some r,
            iat := t0, exp := t0 + 3600, type := "access" } := by
  have hne : ¬ (t0 + 3600 < t1) := by linarith
  simp [verify_token, jwt_decode, generate_tokens, jwt_encode, hne, hrole]

/-- Witness for C4 at a concrete subject and concrete times. -/
theorem token_round_trip_witness :
    ({ id := "u1", email := "u1@example.com", user_type := some "driver" : UserData }).user_type
        = some "driver" ∧
    (100 : ℚ) < 0 + 3600 ∧
    verify_token
        (generate_tokens
          { id := "u1", email := "u1@example.com", user_type := some "driver" } 0 "secret").access_token
        "access" "secret" 100 =
      .ok { user_id := "u1", email := "u1@example.com", user_type := some "driver",
            iat := 0, exp := 0 + 3600, type := "access" } :=
  ⟨rfl, by norm_num,
    token_round_trip { id := "u1", email := "u1@example.com", user_type := some "driver" }
      "driver" "secret" 0 100 rfl (by norm_num)⟩

/-! ### C5 : refresh does not preserve the role -/

/-- C5: the refresh-token payload omits `user_type`, so refreshing a valid,
unexpired refresh token of a user whose role is not `"passenger"` returns a
new access token whose `user_type` claim is `"passenger"`, not the original
role. -/
theorem refresh_access_token_role (user : UserData) (r key : String) (t0 t1 : ℚ)
    (hrole : user.user_type = some r) (hr : r ≠ "passenger") (h1 : t1 < t0 + 2592000) :
    refresh_access_token (generate_tokens user t0 key).refresh_token key t1 =
      .ok { access_token := jwt_encode
              { user_id := user.id, email := user.email,
                user_type := some "passenger",
                iat := t1, exp := t1 + 3600, type := "access" } key,
            expires_in := 3600 } ∧
    (some "passenger" : Option String) ≠ some r := by
  constructor
  · have hne : ¬ (t0 + 2592000 < t1) := by linarith
    simp [refresh_access_token, verify_token, jwt_decode, generate_tokens, jwt_encode, hne]
  · simp only [ne_eq, Option.some.injEq]
    exact fun h => hr h.symm

/-- Witness for C5 at a concrete driver subject and concrete times. -/
theorem refresh_access_token_role_witness :
    ({ id := "u2", email := "u2@example.com", user_type := some "driver" : UserData }).user_type
        = some "driver" ∧
    ("driver" : String) ≠ "passenger" ∧
    (500 : ℚ) < 0 + 2592000 ∧
    refresh_access_token
        (generate_tokens
          { id := "u2", email := "u2@example.com", user_type := some "driver" } 0 "secret").refresh_token
        "secret" 500 =
      .ok { access_token := jwt_encode
              { user_id := "u2", email := "u2@example.com",
                user_type := some "passenger",
                iat := 500, exp := 500 + 3600, type := "access" } "secret",
            expires_in := 3600 } :=
  ⟨rfl, by decide, by norm_num,
    (refresh_access_token_role { id := "u2", email := "u2@example.com", user_type := some "driver" }
      "driver" "secret" 0 500 rfl (by decide) (by norm_num)).1⟩

/-! ### C10 : ride progress divides by zero -/

/-- C10: `track_ride_progress` divides by the route's total distance with no
zero guard: whenever the driver has a recorded location and the route's
`distance_km` is 0, the progress computation hits a division by zero instead
of returning a progress result. -/
theorem track_ride_progress_div_zero (st : GPSState) (ride_id driver_id : String)
    (route : Route)
    (hloc : lookupD st.driver_locations driver_id [] ≠ [])
    (hzero : route.distance_km = 0) :
    track_ride_progress st ride_id driver_id route =
      .error "ZeroDivisionError: float division by zero" := by
  unfold track_ride_progress
  cases h : (lookupD st.driver_locations driver_id []).getLast? with
  | none => exact absurd (List.getLast?_eq_none_iff.mp h) hloc
  | some cur => simp [h, hzero]

/-- Witness for C10: one driver with a recorded location and a route of
distance 0. -/
theorem track_ride_progress_div_zero_witness :
    lookupD gpsStOneDriver.driver_locations "d1" [] ≠ [] ∧
    routeZero.distance_km = 0 ∧
    track_ride_progress gpsStOneDriver "ride_1" "d1" routeZero =
      .error "ZeroDivisionError: float division by zero" := by
  have h1 : lookupD gpsStOneDriver.driver_locations "d1" [] = [locOrigin] := rfl
  refine ⟨by rw [h1]; exact List.cons_ne_nil _ _, rfl, ?_⟩
  exact track_ride_progress_div_zero gpsStOneDriver "ride_1" "d1" routeZero
    (by rw [h1]; exact List.cons_ne_nil _ _) rfl

/-! ### C2 : rate window monotonicity -/

/-- C2: for an unblocked source, when exactly `max_requests` timestamps from
the client lie in the trailing window, the next admission call in the same
window is rejected with a retry-after hint of `window_minutes * 60` seconds
and no timestamp is appended; once every stored timestamp has fallen out of
the window, a request is admitted again. -/
theorem rate_limit_window (max_requests : ℕ) (window_minutes : ℚ)
    (client_id client_ip : String) (now : ℚ) (st : SecState)
    (hblock : st.blocked_ips.contains client_ip = false)
    (hcount : ((lookupD st.rate_limits client_id []).dropWhile
        (fun t => decide (t < now - window_minutes * 60))).length = max_requests)
    (hpos : 0 < max_requests) :
    (rate_limit max_requests window_minutes client_id client_ip now st).1 =
        .rejected (window_minutes * 60) ∧
    lookupD (rate_limit max_requests window_minutes client_id client_ip now st).2.rate_limits
        client_id [] =
      (lookupD st.rate_limits client_id []).dropWhile
        (fun t => decide (t < now - window_minutes * 60)) ∧
    (∀ (now2 : ℚ) (st2 : SecState), st2.blocked_ips.contains client_ip = false →
      (∀ t ∈ lookupD st2.rate_limits client_id [], t < now2 - window_minutes * 60) →
      (rate_limit max_requests window_minutes client_id client_ip now2 st2).1 = .allowed) := by
  refine ⟨?_, ?_, ?_⟩
  · simp only [rate_limit, hblock, Bool.false_eq_true, if_false, hcount, le_refl, if_true]
  · simp only [rate_limit, hblock, Bool.false_eq_true, if_false, hcount, le_refl, if_true]
    split
    · simp [log_security_event, lookupD_setKey]
    · simp [log_security_event, lookupD_setKey]
  · intro now2 st2 hb2 hall
    have hdrop : (lookupD st2.rate_limits client_id []).dropWhile
        (fun t => decide (t < now2 - window_minutes * 60)) = [] := by
      rw [List.dropWhile_eq_nil_iff]
      intro t ht
      exact decide_eq_true (hall t ht)
    simp only [rate_limit, hb2, Bool.false_eq_true, if_false, hdrop, List.length_nil]
    rw [if_neg (by omega)]

/-- Witness for C2: policy 5 requests / 15 minutes, client `"c1"` with five
admitted timestamps in the window at time 500; the sixth call is rejected with
retry-after 900 and appends nothing, and a call at time 2000 (after the window
has elapsed) is admitted. -/
theorem rate_limit_window_witness :
    stC2.blocked_ips.contains "1.2.3.4" = false ∧
    ((lookupD stC2.rate_limits "c1" []).dropWhile
        (fun t => decide (t < 500 - 15 * 60))).length = 5 ∧
    (rate_limit 5 15 "c1" "1.2.3.4" 500 stC2).1 = .rejected (15 * 60) ∧
    (rate_limit 5 15 "c1" "1.2.3.4" 2000 stC2).1 = .allowed := by
  have hcount : ((lookupD stC2.rate_limits "c1" []).dropWhile
      (fun t => decide (t < 500 - 15 * 60))).length = 5 := by
    norm_num [stC2, lookupD, List.find?, List.dropWhile]
  have h := rate_limit_window 5 15 "c1" "1.2.3.4" 500 stC2 rfl hcount (by decide)
  refine ⟨rfl, hcount, h.1, ?_⟩
  refine h.2.2 2000 stC2 rfl ?_
  norm_num [stC2, lookupD, List.find?]

/-! ### C3 : escalation determinism -/

/-- C3: each over-limit rejection increments the source address's suspicion
counter; when the counter stood at 4, the 5th rejection adds the address to
the blocked set while its own response is still the ordinary rate-limit
rejection; and once an address is blocked, every admission check rejects
immediately, with no window pruning and no further counter increment. -/
theorem rate_limit_escalation (max_requests : ℕ) (window_minutes : ℚ)
    (client_id client_ip : String) (now : ℚ) (st : SecState)
    (hblock : st.blocked_ips.contains client_ip = false)
    (hreject : max_requests ≤ ((lookupD st.rate_limits client_id []).dropWhile
        (fun t => decide (t < now - window_minutes * 60))).length) :
    lookupD (rate_limit max_requests window_minutes client_id client_ip now st).2.suspicious_activities
        client_ip 0 = lookupD st.suspicious_activities client_ip 0 + 1 ∧
    (lookupD st.suspicious_activities client_ip 0 = 4 →
      (rate_limit max_requests window_minutes client_id client_ip now st).2.blocked_ips.contains
          client_ip = true ∧
      (rate_limit max_requests window_minutes client_id client_ip now st).1 =
        .rejected (window_minutes * 60)) ∧
    (∀ (st2 : SecState) (now2 : ℚ), st2.blocked_ips.contains client_ip = true →
      (rate_limit max_requests window_minutes client_id client_ip now2 st2).1 = .blockedIp ∧
      (rate_limit max_requests window_minutes client_id client_ip now2 st2).2.rate_limits =
        st2.rate_limits ∧
      (rate_limit max_requests window_minutes client_id client_ip now2 st2).2.suspicious_activities =
        st2.suspicious_activities) := by
  refine ⟨?_, ?_, ?_⟩
  · simp only [rate_limit, hblock, Bool.false_eq_true, if_false, hreject, if_true]
    split
    · simp [log_security_event, lookupD_setKey]
    · simp [log_security_event, lookupD_setKey]
  · intro h4
    constructor
    · simp only [rate_limit, hblock, Bool.false_eq_true, if_false, hreject, if_true,
        log_security_event, h4]
      rw [if_pos (by omega : 5 ≤ (4 : ℕ) + 1)]
      simp [List.contains_eq_any_beq, List.any_append]
    · simp only [rate_limit, hblock, Bool.false_eq_true, if_false, hreject, if_true]
  · intro st2 now2 hb2
    refine ⟨?_, ?_, ?_⟩ <;>
      simp only [rate_limit, hb2, if_true, log_security_event]

/-- Witness for C3: the rejection at suspicion counter 4 blocks the address,
the response is an ordinary rate-limit rejection, and the next check on the
blocked state short-circuits without touching windows or counters. -/
theorem rate_limit_escalation_witness :
    stC3.blocked_ips.contains "9.9.9.9" = false ∧
    (1 : ℕ) ≤ ((lookupD stC3.rate_limits "c9" []).dropWhile
        (fun t => decide (t < 10 - 15 * 60))).length ∧
    lookupD (rate_limit 1 15 "c9" "9.9.9.9" 10 stC3).2.suspicious_activities "9.9.9.9" 0 = 5 ∧
    (rate_limit 1 15 "c9" "9.9.9.9" 10 stC3).2.blocked_ips.contains "9.9.9.9" = true ∧
    (rate_limit 1 15 "c9" "9.9.9.9" 10 stC3).1 = .rejected (15 * 60) ∧
    (rate_limit 1 15 "c9" "9.9.9.9" 20 stC3blocked).1 = .blockedIp := by
  have hfull : (1 : ℕ) ≤ ((lookupD stC3.rate_limits "c9" []).dropWhile
      (fun t => decide (t < 10 - 15 * 60))).length := by
    norm_num [stC3, lookupD, List.find?, List.dropWhile]
  have h := rate_limit_escalation 1 15 "c9" "9.9.9.9" 10 stC3 rfl hfull
  refine ⟨rfl, hfull, ?_, (h.2.1 rfl).1, (h.2.1 rfl).2, ?_⟩
  · rw [h.1]
    rfl
  · exact (h.2.2 stC3blocked 20 rfl).1

/-! ### C9 : track cap and eviction -/

/-- Replacing the speed of the last entry of a list leaves the list unchanged
up to `stripSpeed`. -/
theorem map_stripSpeed_last (l : List Location) (loc : Location) (s : ℝ)
    (hl : l.getLast? = some loc) :
    (l.dropLast ++ [{ loc with speed := s }]).map stripSpeed = l.map stripSpeed := by
  conv_rhs => rw [← List.dropLast_append_getLast? loc hl]
  rw [List.map_append, List.map_append]
  rfl

/-- C9: after a track update the driver's track has at most 100 entries, and
modulo the speed annotation of the appended entry it is exactly the suffix of
the appended sequence that keeps the 100 most recent entries in order. -/
theorem updateTrack_capped (old : List Location) (loc : Location) :
    (updateTrack old loc).length ≤ 100 ∧
    (updateTrack old loc).map stripSpeed =
      ((old ++ [loc]).drop (old.length + 1 - 100)).map stripSpeed := by
  have hlen : (old ++ [loc]).length = old.length + 1 := by simp
  simp only [updateTrack]
  by_cases hbig : 100 < (old ++ [loc]).length
  · rw [if_pos hbig]
    have hlen2 : ((old ++ [loc]).drop ((old ++ [loc]).length - 100)).length = 100 := by
      simp; omega
    rw [if_pos (by omega : 1 < ((old ++ [loc]).drop ((old ++ [loc]).length - 100)).length)]
    have hl : ((old ++ [loc]).drop ((old ++ [loc]).length - 100)).getLast? = some loc := by
      have h1 : (old ++ [loc]).getLast? = some loc := List.getLast?_concat old
      have h2 : old ++ [loc] =
          (old ++ [loc]).take ((old ++ [loc]).length - 100) ++
          (old ++ [loc]).drop ((old ++ [loc]).length - 100) :=
        (List.take_append_drop _ _).symm
      rw [h2, List.getLast?_append] at h1
      cases ht : ((old ++ [loc]).drop ((old ++ [loc]).length - 100)).getLast? with
      | none =>
        have : ((old ++ [loc]).drop ((old ++ [loc]).length - 100)) = [] :=
          List.getLast?_eq_none_iff.mp ht
        rw [this] at hlen2
        simp at hlen2
      | some x =>
        rw [ht] at h1
        simpa [Option.or] using h1
    constructor
    · simp [hlen2]
      omega
    · rw [map_stripSpeed_last _ loc _ hl, hlen]
  · rw [if_neg hbig]
    have hdrop0 : old.length + 1 - 100 = 0 := by omega
    by_cases hgt : 1 < (old ++ [loc]).length
    · rw [if_pos hgt]
      constructor
      · simp at hbig ⊢
        omega
      · rw [map_stripSpeed_last _ loc _ (List.getLast?_concat old), hdrop0]
        simp
    · rw [if_neg hgt]
      constructor
      · omega
      · rw [hdrop0]
        simp

/-! ### C1 : no coordinate validation in the location store -/

/-- Dropping a strict prefix preserves the last element. -/
theorem getLast?_drop_of_lt {α : Type} (l : List α) (k : ℕ) (hk : k < l.length) :
    (l.drop k).getLast? = l.getLast? := by
  conv_rhs => rw [← List.take_append_drop k l]
  rw [List.getLast?_append]
  cases ht : (l.drop k).getLast? with
  | none =>
    have hnil : l.drop k = [] := List.getLast?_eq_none_iff.mp ht
    have : l.length - k = 0 := by
      have := congrArg List.length hnil
      simpa using this
    omega
  | some x => simp [Option.or]

/-- The last entry of an updated track is the new location, up to the speed
annotation. -/
theorem updateTrack_getLast (old : List Location) (loc : Location) :
    ∃ s, (updateTrack old loc).getLast? = some { loc with speed := s } := by
  simp only [updateTrack]
  by_cases hbig : 100 < (old ++ [loc]).length
  · rw [if_pos hbig]
    have hbig2 : 100 < old.length + 1 := by simpa using hbig
    have hlen2 : ((old ++ [loc]).drop ((old ++ [loc]).length - 100)).length = 100 := by
      simp
      omega
    rw [if_pos (by omega : 1 < ((old ++ [loc]).drop ((old ++ [loc]).length - 100)).length)]
    exact ⟨_, List.getLast?_concat _⟩
  · rw [if_neg hbig]
    by_cases hgt : 1 < (old ++ [loc]).length
    · rw [if_pos hgt]
      exact ⟨_, List.getLast?_concat _⟩
    · rw [if_neg hgt]
      exact ⟨loc.speed, List.getLast?_concat old⟩

/-- C1 (amended): `update_driver_location` performs no coordinate validation.
Even when the latitude or longitude is out of range, the call succeeds, the
location is appended to the driver's track (the track is not left unchanged),
and the stored coordinates are the given ones, unmodified — not clamped. -/
theorem update_driver_location_no_validation (st : GPSState) (driver_id : String)
    (loc : Location)
    (hout : loc.latitude < -90 ∨ 90 < loc.latitude ∨
      loc.longitude < -180 ∨ 180 < loc.longitude) :
    (update_driver_location st driver_id loc).1.success = true ∧
    lookupD (update_driver_location st driver_id loc).2.driver_locations driver_id [] =
      updateTrack (lookupD st.driver_locations driver_id []) loc ∧
    ((updateTrack (lookupD st.driver_locations driver_id []) loc).getLastD loc).latitude =
      loc.latitude ∧
    ((updateTrack (lookupD st.driver_locations driver_id []) loc).getLastD loc).longitude =
      loc.longitude ∧
    updateTrack (lookupD st.driver_locations driver_id []) loc ≠ [] := by
  obtain ⟨s, hs⟩ := updateTrack_getLast (lookupD st.driver_locations driver_id []) loc
  refine ⟨rfl, ?_, ?_, ?_, ?_⟩
  · simp [update_driver_location, lookupD_setKey]
  · simp [List.getLastD_eq_getLast?, hs]
  · simp [List.getLastD_eq_getLast?, hs]
  · intro hnil
    rw [hnil] at hs
    simp at hs

/-- Witness for C1's amended claim at an out-of-range location: latitude 100,
longitude 200 is accepted and stored. -/
theorem update_driver_location_no_validation_witness :
    (locBad.latitude < -90 ∨ 90 < locBad.latitude ∨
      locBad.longitude < -180 ∨ 180 < locBad.longitude) ∧
    (update_driver_location gpsStEmpty "d1" locBad).1.success = true ∧
    updateTrack (lookupD gpsStEmpty.driver_locations "d1" []) locBad ≠ [] := by
  have hout : locBad.latitude < -90 ∨ 90 < locBad.latitude ∨
      locBad.longitude < -180 ∨ 180 < locBad.longitude :=
    Or.inr (Or.inl (by norm_num [locBad]))
  have h := update_driver_location_no_validation gpsStEmpty "d1" locBad hout
  exact ⟨hout, h.1, h.2.2.2.2⟩

/-- Counterexample to C1 as stated: at an out-of-range location the call does
not fail — it returns success and the driver's track is changed to hold
exactly the out-of-range location. -/
theorem update_driver_location_accepts_out_of_range :
    (update_driver_location gpsStEmpty "d1" locBad).1.success = true ∧
    lookupD (update_driver_location gpsStEmpty "d1" locBad).2.driver_locations "d1" [] =
      [locBad] := by
  constructor
  · rfl
  · simp [update_driver_location, gpsStEmpty, lookupD, setKey, updateTrack, List.find?]

/-! ### C6 : the ETA formula truncates, it does not round up -/

/-- `atan2 y x` is nonnegative when `y` is. -/
theorem atan2_nonneg (y x : ℝ) (hy : 0 ≤ y) : 0 ≤ atan2 y x := by
  unfold atan2
  split_ifs with h1 h2 h3 h4 h5
  · have ha : Real.arctan 0 ≤ Real.arctan (y / x) :=
      Real.arctan_strictMono.monotone (div_nonneg hy h1.le)
    rwa [Real.arctan_zero] at ha
  · have ha := Real.neg_pi_div_two_lt_arctan (y / x)
    have hπ := Real.pi_pos
    linarith
  · linarith [h3.2]
  · have hπ := Real.pi_pos
    linarith
  · linarith [h5.2]
  · exact le_refl 0

/-- The modelled haversine distance is nonnegative. -/
theorem calculate_distance_nonneg (loc1 loc2 : Location) :
    0 ≤ calculate_distance loc1 loc2 := by
  simp only [calculate_distance]
  have h := atan2_nonneg (Real.sqrt (Real.sin (radians (loc2.latitude - loc1.latitude) / 2) ^ 2 +
      Real.cos (radians loc1.latitude) * Real.cos (radians loc2.latitude) *
        Real.sin (radians (loc2.longitude - loc1.longitude) / 2) ^ 2))
    (Real.sqrt (1 - (Real.sin (radians (loc2.latitude - loc1.latitude) / 2) ^ 2 +
      Real.cos (radians loc1.latitude) * Real.cos (radians loc2.latitude) *
        Real.sin (radians (loc2.longitude - loc1.longitude) / 2) ^ 2)))
    (Real.sqrt_nonneg _)
  nlinarith

/-- C6 (amended): `calculate_eta` equals `max (⌊distance / 25 × 60⌋ + 2) 3`
for every pair of locations — the minutes value is truncated with `int()`
(a floor on the nonnegative distance), not rounded up with `ceil`. -/
theorem calculate_eta_floor (loc1 loc2 : Location) :
    calculate_eta loc1 loc2 =
      max (⌊calculate_distance loc1 loc2 / 25 * 60⌋ + 2) 3 := by
  have hd := calculate_distance_nonneg loc1 loc2
  simp only [calculate_eta, pyInt]
  rw [if_pos (by positivity)]

/-- Witness for C6's amended claim at concrete locations (origin and its
equatorial antipode). -/
theorem calculate_eta_floor_witness :
    calculate_eta locOrigin locAntipode =
      max (⌊calculate_distance locOrigin locAntipode / 25 * 60⌋ + 2) 3 :=
  calculate_eta_floor locOrigin locAntipode

/-- The haversine distance from the origin to its equatorial antipode is
exactly `6371 π` km. -/
theorem calculate_distance_origin_antipode :
    calculate_distance locOrigin locAntipode = 6371 * Real.pi := by
  have h0 : radians 0 = 0 := by unfold radians; ring
  have h180 : radians 180 = Real.pi := by unfold radians; ring
  have hatan : atan2 1 0 = Real.pi / 2 := by
    unfold atan2
    rw [if_neg (lt_irrefl 0), if_neg (by norm_num), if_neg (by norm_num),
      if_pos (by norm_num)]
  simp only [calculate_distance, locOrigin, locAntipode]
  norm_num [h0, h180, Real.sin_pi_div_two, Real.sqrt_one, Real.sqrt_zero, hatan]
  ring

/-- Counterexample to C6 as stated: at the origin/antipode pair the code's
ETA is 48038 minutes while the claimed ceiling formula gives 48039. -/
theorem calculate_eta_ne_ceil :
    calculate_eta locOrigin locAntipode ≠
      max (⌈calculate_distance locOrigin locAntipode / 25 * 60⌉ + 2) 3 := by
  have hd := calculate_distance_origin_antipode
  have hlo : (48036 : ℝ) < 6371 * Real.pi / 25 * 60 := by
    nlinarith [Real.pi_gt_d6]
  have hhi : 6371 * Real.pi / 25 * 60 < 48037 := by
    nlinarith [Real.pi_lt_d6]
  have hfloor : ⌊6371 * Real.pi / 25 * 60⌋ = 48036 := by
    rw [Int.floor_eq_iff]
    constructor
    · push_cast
      linarith
    · push_cast
      linarith
  have hceil : ⌈6371 * Real.pi / 25 * 60⌉ = 48037 := by
    rw [Int.ceil_eq_iff]
    constructor
    · push_cast
      linarith
    · push_cast
      linarith
  have hpos : (0:ℝ) ≤ 6371 * Real.pi / 25 * 60 := by positivity
  simp only [calculate_eta, pyInt, hd]
  rw [if_pos hpos, hfloor, hceil]
  norm_num

/-! ### C8 : proximity query -/

/-- The modelled haversine distance from a location to itself is zero. -/
theorem calculate_distance_self (l : Location) : calculate_distance l l = 0 := by
  have h0 : radians 0 = 0 := by unfold radians; ring
  have hatan : atan2 0 1 = 0 := by
    unfold atan2
    rw [if_pos one_pos, zero_div, Real.arctan_zero]
  simp only [calculate_distance, sub_self, h0, zero_div, Real.sin_zero]
  norm_num [hatan]

/-- `find_nearby_drivers` is the stable sort, by reported distance, of the
spec's filtered entry list. -/
theorem find_nearby_eq_spec (dl : List (String × List Location)) (p : Location) (r : ℝ) :
    find_nearby_drivers dl p r =
      (nearbySpecEntries dl p r).mergeSort
        (fun a b => decide (a.distance_km ≤ b.distance_km)) := by
  simp only [find_nearby_drivers]
  congr 1
  induction dl with
  | nil => rfl
  | cons d tl ih =>
    cases hls : d.2.getLast? with
    | none =>
      have hnil : d.2 = [] := List.getLast?_eq_none_iff.mp hls
      simp only [List.filterMap_cons, hls, nearbySpecEntries, List.filter_cons, hnil,
        List.isEmpty_nil, Bool.not_true, Bool.false_eq_true, if_false]
      exact ih
    | some latest =>
      have hlast : d.2.getLastD p = latest := by
        rw [List.getLastD_eq_getLast?, hls, Option.getD_some]
      have hne : ¬ d.2.isEmpty = true := by
        intro h
        rw [List.isEmpty_iff.mp h] at hls
        simp at hls
      by_cases hcond : calculate_distance p latest ≤ r
      · simp only [List.filterMap_cons, hls, if_pos hcond, nearbySpecEntries,
          List.filter_cons, hne, Bool.not_false, if_true, hlast,
          decide_eq_true hcond, List.map_cons]
        simp only [nearbySpecEntries] at ih
        rw [ih]
      · simp only [List.filterMap_cons, hls, if_neg hcond, nearbySpecEntries,
          List.filter_cons, hne, Bool.not_false, if_true, hlast, List.map_cons]
        rw [if_neg (by simpa using hcond)]
        simp only [nearbySpecEntries] at ih
        rw [ih]

/-- C8 (amended): `find_nearby_drivers` returns one entry per driver with a
non-empty track whose latest location is within the radius (a permutation of
the spec's filtered entry list — drivers with empty tracks are skipped
without error), sorted ascending by the reported (2-decimal rounded)
distance. There is no `maxResults` bound: nothing is truncated. -/
theorem find_nearby_sorted_perm (dl : List (String × List Location)) (p : Location) (r : ℝ) :
    List.Sorted (fun a b : NearbyDriver => a.distance_km ≤ b.distance_km)
      (find_nearby_drivers dl p r) ∧
    (find_nearby_drivers dl p r).Perm (nearbySpecEntries dl p r) := by
  constructor
  · rw [find_nearby_eq_spec]
    refine List.Pairwise.imp ?_ (List.sorted_mergeSort ?_ ?_ (nearbySpecEntries dl p r))
    · intro a b h
      exact of_decide_eq_true h
    · intro a b c hab hbc
      exact decide_eq_true (le_trans (of_decide_eq_true hab) (of_decide_eq_true hbc))
    · intro a b
      rcases le_total a.distance_km b.distance_km with h | h
      · simp [h]
      · simp [h]
  · rw [find_nearby_eq_spec]
    exact List.mergeSort_perm _ _

/-- Counterexample to C8 as stated: the result is not truncated to any
`maxResults` bound — with one driver at the origin itself, the query returns
one entry, exceeding the bound `maxResults = 0` (no such parameter exists in
the source). -/
theorem find_nearby_no_truncation :
    ¬ ((find_nearby_drivers [("d1", [locOrigin])] locOrigin 5).length ≤ 0) := by
  have hself := calculate_distance_self locOrigin
  intro hle
  have hlen : (find_nearby_drivers [("d1", [locOrigin])] locOrigin 5).length = 1 := by
    simp [find_nearby_drivers, hself]
  omega

end TaxiGo
